import Mathlib

set_option linter.unusedVariables false

/-!
Shallow embedding of `example_xla.py` (furiosa-ai/llama-xla).

The file models the driver's process-visible behaviour: the process-global
default tensor dtype (`torch.set_default_tensor_type`), the standard-output
redirection, and a chronological event trace of file reads, model
construction, device transfers, prints and generation calls.  External
collaborators (the `llama` package's `Tokenizer`, `Transformer`, `LLaMA`
generation primitive, and the accelerator runtime) are modelled as an
environment: their observable effects follow the spec's description of the
collaborator interfaces, while all control flow is translated line by line
from `example_xla.py`.
-/

/-- Torch default tensor dtypes that appear in `example_xla.py`:
`torch.FloatTensor` (the full-precision default), `torch.cuda.HalfTensor`
and `torch.BFloat16Tensor`. -/
inductive DType where
  | float
  | half
  | bfloat16
  deriving DecidableEq, Repr

/-- Devices visible at this layer: host memory (`cpu`, the `map_location`
of `torch.load` and where `Transformer` allocates) and accelerator devices. -/
inductive Device where
  | cpu
  | cuda
  | xla
  deriving DecidableEq, Repr

/-- Where `sys.stdout` currently points: the real stream or `os.devnull`. -/
inductive Stdout where
  | real
  | devnull
  deriving DecidableEq, Repr

/-- Python exceptions that the modelled code can raise. -/
inductive PyErr where
  | assertionError : String → PyErr
  | indexError : PyErr
  | runtimeError : PyErr
  | zeroDivision : PyErr
  deriving DecidableEq, Repr

/-- Chronological events of one process run: prints, the stdout
redirection, shard / manifest reads, construction steps, dtype switches,
device transfers and generation calls (with their prompts and sampling
parameters). -/
inductive Ev where
  | redirectStdout : Ev
  | print : String → Ev
  | loadShard : String → Ev
  | readParams : Ev
  | constructTokenizer : Ev
  | setDType : DType → Ev
  | constructModel : Ev
  | loadStateDict : Ev
  | toDevice : Device → Ev
  | cachesToDevice : Nat → Device → Ev
  | generate : List String → Nat → ℚ → ℚ → Ev
  | printEnvInfo : Ev
  | printRunInfo : Ev
  | printMean : ℚ → Ev
  | printMeanPerTok : ℚ → Ev
  deriving DecidableEq, Repr

/-- Process-global state threaded through the run. -/
structure PState where
  defaultDType : DType
  stdout : Stdout
  events : List Ev
  deriving DecidableEq, Repr

/-- Fresh process state: full-precision default dtype, real stdout. -/
def PState.init : PState :=
  { defaultDType := DType.float, stdout := Stdout.real, events := [] }

/-- Append one event to the trace. -/
def PState.emit (st : PState) (e : Ev) : PState :=
  { st with events := st.events ++ [e] }

/-- `torch.set_default_tensor_type`: mutate the process-global dtype
(also recorded in the trace). -/
def PState.setDefaultDType (st : PState) (d : DType) : PState :=
  (({ st with defaultDType := d } : PState)).emit (Ev.setDType d)

/-- The tokenizer collaborator: only its `n_words` property is consumed. -/
structure Tokenizer where
  nWords : Nat
  deriving DecidableEq, Repr

/-- A tensor as observed at this layer: which device it resides on and its
dtype.  `Tensor.to` is `torch.Tensor.to(device)`. -/
structure Tensor where
  device : Device
  dtype : DType
  deriving DecidableEq, Repr

/-- `t.to(device)`: the device-migrated copy of `t`. -/
def Tensor.to (t : Tensor) (d : Device) : Tensor :=
  { t with device := d }

/-- The hyperparameter manifest handed to `Transformer` (`ModelArgs` in the
`llama` package): `max_seq_len`, `max_batch_size`, the `params` dict
(`dim`, `n_layers`, `n_heads`, `quant`) and the post-hoc `vocab_size`. -/
structure ModelArgs where
  dim : Nat
  nLayers : Nat
  nHeads : Nat
  quant : Bool
  maxSeqLen : Nat
  maxBatchSize : Nat
  vocabSize : Nat
  deriving DecidableEq, Repr

/-- The flat key-value document stored in `params.json`, and equally the
dict synthesized from explicit arguments when no checkpoint is given. -/
structure ParamsDict where
  dim : Nat
  nLayers : Nat
  nHeads : Nat
  quant : Bool
  deriving DecidableEq, Repr

/-- A checkpoint directory: the names of its `*.pth` shard files (as
enumerated by `Path(ckpt_dir).glob("*.pth")`) and the contents of its
shared `params.json`. -/
structure CheckpointDir where
  files : List String
  params : ParamsDict
  deriving DecidableEq, Repr

/-- The model collaborator.  Modelled from the spec: a parameter container
with a `cache_kvs` collection of per-layer cache-tensor pairs; `device` is
where its parameters reside, `loadedCkpt` records whether a checkpoint
state dict has been applied (non-strict). -/
structure Transformer where
  args : ModelArgs
  device : Device
  cache_kvs : List (Tensor × Tensor)
  loadedCkpt : Bool
  deriving DecidableEq, Repr

/-- Modelled from the spec: `Transformer(model_args)` allocates its
parameters and one cache pair per layer on the host, using the
process-global default dtype in effect at construction time. -/
def Transformer.build (a : ModelArgs) (dt : DType) : Transformer :=
  { args := a, device := Device.cpu,
    cache_kvs :=
      List.replicate a.nLayers
        (({ device := Device.cpu, dtype := dt } : Tensor),
         ({ device := Device.cpu, dtype := dt } : Tensor)),
    loadedCkpt := false }

/-- `model.to(device)`: migrates the parameter container.  `cache_kvs` is a
plain Python list of tuples, not registered buffers, so `model.to` does not
move it — that is why `load` migrates each pair element-wise afterwards. -/
def Transformer.toDev (m : Transformer) (d : Device) : Transformer :=
  { m with device := d }

/-- The generation handle `LLaMA(model, tokenizer)` with its append-only
latency records. -/
structure LLaMA where
  model : Transformer
  tokenizer : Tokenizer
  latency_list : List ℚ
  per_token_latency_list : List ℚ
  deriving DecidableEq, Repr

/-- Environment oracle for the external collaborators called inside `load`:
the tokenizer the vocabulary file denotes, and whether each fallible
external call raises. -/
structure Env where
  tokenizer : Tokenizer
  tokenizerFails : Bool
  transformerFails : Bool
  loadStateFails : Bool
  toDeviceFails : Bool
  deriving DecidableEq, Repr

/-- All external calls inside `load` succeed. -/
def Env.ok (e : Env) : Prop :=
  e.tokenizerFails = false ∧ e.transformerFails = false ∧
    e.loadStateFails = false ∧ e.toDeviceFails = false

instance (e : Env) : Decidable e.ok := by
  unfold Env.ok
  infer_instance

/-- Insert a string into a ≤-sorted list, keeping it sorted. -/
def insertSorted (x : String) : List String → List String
  | [] => [x]
  | y :: ys => if x ≤ y then x :: y :: ys else y :: insertSorted x ys

/-- Lexicographic ascending sort, the embedding of Python `sorted` over
the globbed shard paths. -/
def sortStrings (l : List String) : List String :=
  l.foldr insertSorted []

/-- The assertion message of `load`:
`f"Loading a checkpoint for MP={len(checkpoints)} but world size is {world_size}"`. -/
def assertMsg (nCkpt worldSize : Nat) : String :=
  s!"Loading a checkpoint for MP={nCkpt} but world size is {worldSize}"

/-- Lines 57–73 of `example_xla.py`: resolve the params dict, and when a
checkpoint directory is given, sort its shard files, assert the shard
count equals `world_size`, load the shard at index `rank` (host memory)
and read `params.json`.  Returns whether a checkpoint was loaded plus the
params dict. -/
def loadResolve (ckptDir : Option CheckpointDir) (rank worldSize : Nat)
    (dim nLayers nHeads : Nat) (quant : Bool) (st : PState) :
    PState × Except PyErr (Bool × ParamsDict) :=
  match ckptDir with
  | some dir =>
      let checkpoints := sortStrings dir.files
      if worldSize = checkpoints.length then
        match checkpoints[rank]? with
        | some ckptPath =>
            let st := st.emit (Ev.loadShard ckptPath)
            let st := st.emit Ev.readParams
            (st, Except.ok (true, dir.params))
        | none => (st, Except.error PyErr.indexError)
      else
        (st, Except.error (PyErr.assertionError
          (assertMsg checkpoints.length worldSize)))
  | none =>
      (st, Except.ok (false,
        { dim := dim, nLayers := nLayers, nHeads := nHeads, quant := quant }))

/-- Line 86 of `example_xla.py`: `model.load_state_dict(checkpoint,
strict=False)`, executed only when a checkpoint directory was given. -/
def applyCkpt (env : Env) (hasCkpt : Bool) (model : Transformer)
    (st : PState) : PState × Except PyErr Transformer :=
  if hasCkpt then
    if env.loadStateFails then (st, Except.error PyErr.runtimeError)
    else (st.emit Ev.loadStateDict, Except.ok { model with loadedCkpt := true })
  else (st, Except.ok model)

/-- Lines 87–93 of `example_xla.py`: migrate the model to the device,
migrate every cache pair element-wise, restore the full-precision default
dtype, wrap into `LLaMA(model, tokenizer)` and print the timing line. -/
def placeModel (env : Env) (device : Device) (tokenizer : Tokenizer)
    (model : Transformer) (st : PState) : PState × Except PyErr LLaMA :=
  if env.toDeviceFails then (st, Except.error PyErr.runtimeError)
  else
    let m1 := model.toDev device
    let st := st.emit (Ev.toDevice device)
    let m2 := { m1 with
      cache_kvs := m1.cache_kvs.map (fun p => (p.1.to device, p.2.to device)) }
    let st := st.emit (Ev.cachesToDevice m2.cache_kvs.length device)
    let st := st.setDefaultDType DType.float
    let st := st.emit (Ev.print "Loaded")
    (st, Except.ok
      { model := m2, tokenizer := tokenizer,
        latency_list := [], per_token_latency_list := [] })

/-- Lines 75–93 of `example_xla.py` after param resolution: build the
manifest, construct the tokenizer, set `vocab_size` from it, switch the
process-global default dtype to half (CUDA) or bfloat16, construct the
model, optionally apply the checkpoint, then place everything. -/
def loadBuild (useCuda : Bool) (env : Env) (hasCkpt : Bool)
    (params : ParamsDict) (maxSeqLen maxBatchSize : Nat) (device : Device)
    (st : PState) : PState × Except PyErr LLaMA :=
  if env.tokenizerFails then (st, Except.error PyErr.runtimeError)
  else
    let tokenizer := env.tokenizer
    let st := st.emit Ev.constructTokenizer
    let modelArgs : ModelArgs :=
      { dim := params.dim, nLayers := params.nLayers, nHeads := params.nHeads,
        quant := params.quant, maxSeqLen := maxSeqLen,
        maxBatchSize := maxBatchSize, vocabSize := tokenizer.nWords }
    let dt := if useCuda then DType.half else DType.bfloat16
    let st := st.setDefaultDType dt
    if env.transformerFails then (st, Except.error PyErr.runtimeError)
    else
      let model := Transformer.build modelArgs dt
      let st := st.emit Ev.constructModel
      match applyCkpt env hasCkpt model st with
      | (st, Except.error e) => (st, Except.error e)
      | (st, Except.ok m) => placeModel env device tokenizer m st

/-- The `load` routine of `example_xla.py` (lines 42–94), translated
line by line.  `tokenizerPath` is forwarded to the tokenizer collaborator
(whose result the environment supplies). -/
def load (useCuda : Bool) (env : Env) (ckptDir : Option CheckpointDir)
    (tokenizerPath : String) (rank worldSize maxSeqLen maxBatchSize : Nat)
    (device : Device) (dim nLayers nHeads : Nat) (quant : Bool)
    (st : PState) : PState × Except PyErr LLaMA :=
  let st := st.emit (Ev.print "Loading")
  match loadResolve ckptDir rank worldSize dim nLayers nHeads quant st with
  | (st, Except.error e) => (st, Except.error e)
  | (st, Except.ok (hasCkpt, params)) =>
      loadBuild useCuda env hasCkpt params maxSeqLen maxBatchSize device st

/-- Behaviour oracle for the generation collaborator: the results, call
latency and per-token latency of the k-th generation call of the run
(the call index is the length of the latency record before the call). -/
structure GenEnv where
  results : Nat → List String
  latency : Nat → ℚ
  perTok : Nat → ℚ

/-- Modelled from the spec: `generator.generate(prompts, max_new_tokens,
device, temperature, top_p)` returns one string per prompt and appends one
entry to each latency record. -/
def LLaMA.generate (g : LLaMA) (genv : GenEnv) (prompts : List String)
    (maxNew : Nat) (dev : Device) (temp topP : ℚ) (st : PState) :
    PState × LLaMA × List String :=
  let k := g.latency_list.length
  let st := st.emit (Ev.generate prompts maxNew temp topP)
  (st,
   { g with latency_list := g.latency_list ++ [genv.latency k],
            per_token_latency_list :=
              g.per_token_latency_list ++ [genv.perTok k] },
   genv.results k)

/-- The separator printed between generation results (line 162). -/
def sepLine : String := "\n==================================\n"

/-- Lines 160–162: print each result followed by the separator. -/
def printResults (rs : List String) (st : PState) : PState :=
  rs.foldl (fun s r => (s.emit (Ev.print r)).emit (Ev.print sepLine)) st

/-- Lines 152–162: the `for _ in range(n_times)` loop — generate with the
fixed prompts and parameters, then print every result. -/
def genLoop (genv : GenEnv) (prompts : List String) (temp topP : ℚ)
    (dev : Device) : Nat → LLaMA → PState → PState × LLaMA
  | 0, g, st => (st, g)
  | n + 1, g, st =>
      let r := g.generate genv prompts 256 dev temp topP st
      let st := printResults r.2.2 r.1
      genLoop genv prompts temp topP dev n r.2.1 st

/-- Python division: raises `ZeroDivisionError` on a zero divisor. -/
def pyDiv (a b : ℚ) : Except PyErr ℚ :=
  if b = 0 then Except.error PyErr.zeroDivision else Except.ok (a / b)

/-- The single live prompt of `main` (line 120). -/
def promptList : List String := ["I believe the meaning of life is"]

/-- The values `main` reports on success: the final generation handle and
the two printed means (the per-token one converted to milliseconds). -/
structure MainOut where
  gen : LLaMA
  meanLatency : ℚ
  meanPerTokMs : ℚ
  deriving DecidableEq, Repr

/-- Lines 163–167 of `example_xla.py`: the info lines and the two
mean-latency reports, each dividing by `n_times` Python-style (the mean
uses the latency-record entries from index 1 onward, excluding the warmup
entry at index 0; the per-token mean is additionally scaled to
milliseconds). -/
def mainStats (g : LLaMA) (nTimes : Nat) (st : PState) :
    PState × Except PyErr MainOut :=
  let st := st.emit (Ev.print "XLA:GPU ENV INFO:")
  let st := st.emit Ev.printEnvInfo
  let st := st.emit Ev.printRunInfo
  match pyDiv (g.latency_list.drop 1).sum (nTimes : ℚ) with
  | Except.error e => (st, Except.error e)
  | Except.ok m1 =>
      let st := st.emit (Ev.printMean m1)
      match pyDiv (g.per_token_latency_list.drop 1).sum (nTimes : ℚ) with
      | Except.error e => (st, Except.error e)
      | Except.ok m2 =>
          let st := st.emit (Ev.printMeanPerTok (m2 * 1000))
          (st, Except.ok
            { gen := g, meanLatency := m1, meanPerTokMs := m2 * 1000 })

/-- Lines 145–167 of `example_xla.py` after a successful `load`: the
warmup generation (results discarded), the timed loop and the reporting
tail. -/
def mainTail (genv : GenEnv) (temperature topP : ℚ) (nTimes : Nat)
    (g : LLaMA) (st : PState) : PState × Except PyErr MainOut :=
  let w := g.generate genv promptList 256 Device.xla temperature topP st
  let r := genLoop genv promptList temperature topP Device.xla nTimes
    w.2.1 w.1
  mainStats r.2 nTimes r.1

/-- The `main` routine of `example_xla.py` (lines 97–167): redirect stdout
on non-root ranks, load, one warmup generation (results discarded),
`n_times` timed generations with printing, then the reporting tail
`mainStats`. -/
def mainRun (useCuda : Bool) (env : Env) (genv : GenEnv) (rank worldSize : Nat)
    (tokenizerPath : String) (temperature topP : ℚ)
    (maxSeqLen maxBatchSize : Nat) (ckptDir : Option CheckpointDir)
    (dim nLayers nHeads : Nat) (quant : Bool) (nTimes : Nat)
    (st : PState) : PState × Except PyErr MainOut :=
  let st := if rank > 0 then
      (({ st with stdout := Stdout.devnull } : PState)).emit Ev.redirectStdout
    else st
  match load useCuda env ckptDir tokenizerPath rank worldSize maxSeqLen
      maxBatchSize Device.xla dim nLayers nHeads quant st with
  | (st, Except.error e) => (st, Except.error e)
  | (st, Except.ok g) => mainTail genv temperature topP nTimes g st

/-- The model-parallel topology one process observes
(`setup_model_parallel`). -/
structure Topo where
  rank : Nat
  worldSize : Nat
  deriving DecidableEq, Repr

/-- The launcher's argument bundle: everything `mp_main` forwards. -/
structure Config where
  tokenizerPath : String
  temperature : ℚ
  topP : ℚ
  maxSeqLen : Nat
  maxBatchSize : Nat
  ckptDir : Option CheckpointDir
  dim : Nat
  nLayers : Nat
  nHeads : Nat
  quant : Bool
  nTimes : Nat

/-- Run the full `main` pipeline in a fresh process with topology `t` and
configuration `cfg`. -/
def runMain (useCuda : Bool) (env : Env) (genv : GenEnv) (t : Topo)
    (cfg : Config) : PState × Except PyErr MainOut :=
  mainRun useCuda env genv t.rank t.worldSize cfg.tokenizerPath cfg.temperature
    cfg.topP cfg.maxSeqLen cfg.maxBatchSize cfg.ckptDir cfg.dim cfg.nLayers
    cfg.nHeads cfg.quant cfg.nTimes PState.init

/-- `_fn` (lines 170–185): the spawn entry point — ignores the child index
and forwards every argument to `main` unchanged. -/
def fnChild (idx : Nat) (useCuda : Bool) (env : Env) (genv : GenEnv)
    (t : Topo) (cfg : Config) : PState × Except PyErr MainOut :=
  runMain useCuda env genv t cfg

/-- What the launcher did: spawned one run per visible device, or ran the
pipeline once in the calling process. -/
inductive LaunchOut where
  | spawned : List (PState × Except PyErr MainOut) → LaunchOut
  | inProcess : PState × Except PyErr MainOut → LaunchOut

/-- `mp_main` (lines 188–209): when `mp` and `USE_XLA` hold, `xmp.spawn`
runs `_fn` once per visible device (`nDevices`), each child resolving its
own topology; otherwise `main` runs once in the calling process. -/
def mp_main (useCuda useXla mp : Bool) (nDevices : Nat)
    (childTopo : Nat → Topo) (selfTopo : Topo) (env : Env) (genv : GenEnv)
    (cfg : Config) : LaunchOut :=
  if mp && useXla then
    LaunchOut.spawned ((List.range nDevices).map
      (fun idx => fnChild idx useCuda env genv (childTopo idx) cfg))
  else
    LaunchOut.inProcess (runMain useCuda env genv selfTopo cfg)

/-- The shard files read by `torch.load`, in trace order. -/
def shardLoads (es : List Ev) : List String :=
  es.filterMap (fun e => match e with
    | Ev.loadShard s => some s
    | _ => none)

/-- The generation-call events of a trace, in order. -/
def genEvents (es : List Ev) : List Ev :=
  es.filter (fun e => match e with
    | Ev.generate _ _ _ _ => true
    | _ => false)

/-- The strings printed during a trace, in order. -/
def printedStrings (es : List Ev) : List String :=
  es.filterMap (fun e => match e with
    | Ev.print s => some s
    | _ => none)

/-- The print events of one result batch: each result then the separator. -/
def printEvs (rs : List String) : List Ev :=
  rs.flatMap (fun r => [Ev.print r, Ev.print sepLine])

/-- The generator a successful `load` returns: the model built from
`params` (augmented with the tokenizer's vocabulary size), fully migrated
to `device` together with every cache pair, with empty latency records. -/
def placedLLaMA (useCuda : Bool) (params : ParamsDict)
    (maxSeqLen maxBatchSize : Nat) (tok : Tokenizer) (hasCkpt : Bool)
    (device : Device) : LLaMA :=
  { model :=
      { args :=
          { dim := params.dim, nLayers := params.nLayers,
            nHeads := params.nHeads, quant := params.quant,
            maxSeqLen := maxSeqLen, maxBatchSize := maxBatchSize,
            vocabSize := tok.nWords },
        device := device,
        cache_kvs := List.replicate params.nLayers
          (({ device := device,
              dtype := if useCuda then DType.half else DType.bfloat16 } :
              Tensor),
           ({ device := device,
              dtype := if useCuda then DType.half else DType.bfloat16 } :
              Tensor)),
        loadedCkpt := hasCkpt },
    tokenizer := tok, latency_list := [], per_token_latency_list := [] }

/-- The events a successful construction/placement phase appends. -/
def loadEvs (useCuda : Bool) (hasCkpt : Bool) (nLayers : Nat)
    (device : Device) : List Ev :=
  [Ev.constructTokenizer,
   Ev.setDType (if useCuda then DType.half else DType.bfloat16),
   Ev.constructModel]
  ++ (if hasCkpt then [Ev.loadStateDict] else [])
  ++ [Ev.toDevice device, Ev.cachesToDevice nLayers device,
      Ev.setDType DType.float, Ev.print "Loaded"]

/-- The events of one run of `mainRun` up to the end of `load`
(checkpoint-less path). -/
def preEvs (useCuda : Bool) (rank nLayers : Nat) : List Ev :=
  (if rank > 0 then [Ev.redirectStdout] else [])
    ++ Ev.print "Loading" :: loadEvs useCuda false nLayers Device.xla

/-- The events of the timed generation loop: the i-th iteration is the
generation call of overall index `1 + i` followed by its result prints. -/
def loopEvs (genv : GenEnv) (temp topP : ℚ) (n : Nat) : List Ev :=
  (List.range n).flatMap (fun i =>
    Ev.generate promptList 256 temp topP :: printEvs (genv.results (1 + i)))

/-- The latency record after one warmup call and `n` timed calls. -/
def runLatencies (genv : GenEnv) (n : Nat) : List ℚ :=
  genv.latency 0 :: (List.range n).map (fun i => genv.latency (1 + i))

/-- The per-token latency record after one warmup call and `n` timed
calls. -/
def runPerTok (genv : GenEnv) (n : Nat) : List ℚ :=
  genv.perTok 0 :: (List.range n).map (fun i => genv.perTok (1 + i))

/-- The generation handle after the warmup call and `n` timed calls of a
checkpoint-less run. -/
def gAfter (useCuda : Bool) (env : Env) (genv : GenEnv)
    (maxSeqLen maxBatchSize dim nLayers nHeads : Nat) (q : Bool)
    (n : Nat) : LLaMA :=
  { placedLLaMA useCuda
      { dim := dim, nLayers := nLayers, nHeads := nHeads, quant := q }
      maxSeqLen maxBatchSize env.tokenizer false Device.xla with
    latency_list := runLatencies genv n,
    per_token_latency_list := runPerTok genv n }

/-- The process state after the warmup call and `n` timed calls of a
checkpoint-less run started from `PState.init`. -/
def stAfter (useCuda : Bool) (genv : GenEnv) (rank nLayers : Nat)
    (temp topP : ℚ) (n : Nat) : PState :=
  { defaultDType := DType.float,
    stdout := if rank > 0 then Stdout.devnull else Stdout.real,
    events := preEvs useCuda rank nLayers
      ++ Ev.generate promptList 256 temp topP :: loopEvs genv temp topP n }

/-- A concrete all-succeeding environment used in witnesses. -/
def envW : Env :=
  { tokenizer := { nWords := 32000 }, tokenizerFails := false,
    transformerFails := false, loadStateFails := false,
    toDeviceFails := false }

/-- A concrete environment in which `Transformer(model_args)` raises. -/
def envCrash : Env :=
  { tokenizer := { nWords := 32000 }, tokenizerFails := false,
    transformerFails := true, loadStateFails := false,
    toDeviceFails := false }

/-- A concrete generation oracle used in witnesses. -/
def genvW : GenEnv :=
  { results := fun k => [toString k],
    latency := fun k => (k : ℚ),
    perTok := fun k => (k : ℚ) / 2 }

/-- A concrete single-shard checkpoint directory used in witnesses. -/
def dirW : CheckpointDir :=
  { files := ["consolidated.00.pth"],
    params := { dim := 512, nLayers := 8, nHeads := 8, quant := false } }

/-- A concrete launcher configuration used in witnesses. -/
def cfgW : Config :=
  { tokenizerPath := "tokenizer.model", temperature := 8 / 10,
    topP := 95 / 100, maxSeqLen := 512, maxBatchSize := 32,
    ckptDir := none, dim := 256, nLayers := 4, nHeads := 4,
    quant := false, nTimes := 3 }

/-! ### Supporting lemmas -/

theorem insertSorted_length (x : String) (l : List String) :
    (insertSorted x l).length = l.length + 1 := by
  induction l with
  | nil => rfl
  | cons y ys ih =>
      simp only [insertSorted]
      split <;> simp [ih]

theorem sortStrings_length (l : List String) :
    (sortStrings l).length = l.length := by
  induction l with
  | nil => rfl
  | cons x xs ih =>
      simp only [sortStrings, List.foldr_cons] at ih ⊢
      rw [insertSorted_length, ih]
      rfl

theorem head?_append_left {α : Type} (l t : List α) (h : l ≠ []) :
    (l ++ t).head? = l.head? := by
  cases l <;> simp_all

theorem flatMap_congr_fun {α β : Type} (l : List α) (f g : α → List β)
    (h : ∀ a ∈ l, f a = g a) : l.flatMap f = l.flatMap g := by
  induction l with
  | nil => rfl
  | cons x xs ih =>
      simp only [List.flatMap_cons]
      rw [h x (by simp), ih (fun a ha => h a (by simp [ha]))]

theorem range_succ_map_shift {α : Type} (f : Nat → α) (n : Nat) :
    (List.range (n + 1)).map f
      = f 0 :: (List.range n).map (fun i => f (1 + i)) := by
  rw [List.range_succ_eq_map, List.map_cons, List.map_map]
  refine congrArg _ (List.map_congr_left fun i _ => ?_)
  simp [Function.comp, Nat.add_comm]

theorem range_succ_flatMap_shift {α : Type} (f : Nat → List α) (n : Nat) :
    (List.range (n + 1)).flatMap f
      = f 0 ++ (List.range n).flatMap (fun i => f (1 + i)) := by
  rw [List.range_succ_eq_map, List.flatMap_cons, List.flatMap_map]
  refine congrArg _ (flatMap_congr_fun _ _ _ fun i _ => ?_)
  simp [Nat.add_comm]

theorem loadResolve_none (rank ws dim nl nh : Nat) (q : Bool) (st : PState) :
    loadResolve none rank ws dim nl nh q st
      = (st, Except.ok (false,
          { dim := dim, nLayers := nl, nHeads := nh, quant := q })) := rfl

theorem loadResolve_mismatch (dir : CheckpointDir) (rank ws dim nl nh : Nat)
    (q : Bool) (st : PState) (h : ws ≠ dir.files.length) :
    loadResolve (some dir) rank ws dim nl nh q st
      = (st, Except.error (PyErr.assertionError
          (assertMsg dir.files.length ws))) := by
  have hlen : (sortStrings dir.files).length = dir.files.length :=
    sortStrings_length _
  simp only [loadResolve]
  rw [if_neg (by rw [hlen]; exact h), hlen]

theorem loadResolve_hit (dir : CheckpointDir) (rank ws dim nl nh : Nat)
    (q : Bool) (st : PState) (hws : ws = dir.files.length)
    (hr : rank < ws) :
    loadResolve (some dir) rank ws dim nl nh q st
      = ((st.emit (Ev.loadShard ((sortStrings dir.files).getD rank ""))).emit
           Ev.readParams,
         Except.ok (true, dir.params)) := by
  have hlen : (sortStrings dir.files).length = dir.files.length :=
    sortStrings_length _
  have hlt : rank < (sortStrings dir.files).length := by omega
  have hsome : (sortStrings dir.files)[rank]?
      = some ((sortStrings dir.files).getD rank "") := by
    rw [List.getD_eq_getElem?_getD, List.getElem?_eq_getElem hlt]
    rfl
  simp only [loadResolve]
  rw [if_pos (by omega), hsome]

theorem loadResolve_oob (dir : CheckpointDir) (rank ws dim nl nh : Nat)
    (q : Bool) (st : PState) (hws : ws = dir.files.length)
    (hr : ws ≤ rank) :
    loadResolve (some dir) rank ws dim nl nh q st
      = (st, Except.error PyErr.indexError) := by
  have hlen : (sortStrings dir.files).length = dir.files.length :=
    sortStrings_length _
  have hnone : (sortStrings dir.files)[rank]? = none :=
    List.getElem?_eq_none (by omega)
  simp only [loadResolve]
  rw [if_pos (by omega), hnone]

theorem loadBuild_ok_eval (useCuda : Bool) (env : Env) (hasCkpt : Bool)
    (params : ParamsDict) (msl mbs : Nat) (dev : Device) (st : PState)
    (hok : env.ok) :
    loadBuild useCuda env hasCkpt params msl mbs dev st
      = ({ defaultDType := DType.float, stdout := st.stdout,
           events := st.events ++ loadEvs useCuda hasCkpt params.nLayers dev },
         Except.ok (placedLLaMA useCuda params msl mbs env.tokenizer hasCkpt
           dev)) := by
  obtain ⟨h1, h2, h3, h4⟩ := hok
  cases hasCkpt <;>
    simp [loadBuild, applyCkpt, placeModel, PState.emit, PState.setDefaultDType,
      Transformer.build, Transformer.toDev, Tensor.to, placedLLaMA, loadEvs,
      h1, h2, h3, h4, List.map_replicate]

theorem loadBuild_ok_shape (useCuda : Bool) (env : Env) (hasCkpt : Bool)
    (params : ParamsDict) (msl mbs : Nat) (dev : Device) (st : PState)
    (g : LLaMA)
    (h : (loadBuild useCuda env hasCkpt params msl mbs dev st).2
          = Except.ok g) :
    g = placedLLaMA useCuda params msl mbs env.tokenizer hasCkpt dev
      ∧ (loadBuild useCuda env hasCkpt params msl mbs dev st).1.defaultDType
          = DType.float := by
  cases h1 : env.tokenizerFails <;> cases h2 : env.transformerFails <;>
    cases h3 : env.loadStateFails <;> cases h4 : env.toDeviceFails <;>
    cases hasCkpt <;>
    simp_all [loadBuild, applyCkpt, placeModel, PState.emit,
      PState.setDefaultDType, Transformer.build, Transformer.toDev, Tensor.to,
      placedLLaMA, List.map_replicate]

theorem loadBuild_frame (useCuda : Bool) (env : Env) (hasCkpt : Bool)
    (params : ParamsDict) (msl mbs : Nat) (dev : Device) (st : PState) :
    (loadBuild useCuda env hasCkpt params msl mbs dev st).1.stdout = st.stdout
      ∧ shardLoads (loadBuild useCuda env hasCkpt params msl mbs dev
          st).1.events = shardLoads st.events
      ∧ List.count Ev.redirectStdout (loadBuild useCuda env hasCkpt params msl
          mbs dev st).1.events = List.count Ev.redirectStdout st.events
      ∧ (st.events ≠ [] → (loadBuild useCuda env hasCkpt params msl mbs dev
          st).1.events.head? = st.events.head?) := by
  cases h1 : env.tokenizerFails <;> cases h2 : env.transformerFails <;>
    cases h3 : env.loadStateFails <;> cases h4 : env.toDeviceFails <;>
    cases hasCkpt <;>
    refine ⟨?_, ?_, ?_, fun hne => ?_⟩ <;>
    simp_all [loadBuild, applyCkpt, placeModel, PState.emit,
      PState.setDefaultDType, shardLoads, List.filterMap_append,
      List.count_append, head?_append_left] <;>
    cases he : st.events <;> simp_all

theorem loadBuild_no_assert (useCuda : Bool) (env : Env) (hasCkpt : Bool)
    (params : ParamsDict) (msl mbs : Nat) (dev : Device) (st : PState)
    (m : String) :
    (loadBuild useCuda env hasCkpt params msl mbs dev st).2
      ≠ Except.error (PyErr.assertionError m) := by
  cases h1 : env.tokenizerFails <;> cases h2 : env.transformerFails <;>
    cases h3 : env.loadStateFails <;> cases h4 : env.toDeviceFails <;>
    cases hasCkpt <;>
    simp_all [loadBuild, applyCkpt, placeModel, PState.emit,
      PState.setDefaultDType]

theorem head?_isSome_ne_nil {α : Type} (l : List α) (a : α)
    (h : l.head? = some a) : l ≠ [] := by
  cases l <;> simp_all

theorem load_none_eval (useCuda : Bool) (env : Env) (tp : String)
    (rank ws msl mbs : Nat) (dev : Device) (dim nl nh : Nat) (q : Bool)
    (st : PState) (hok : env.ok) :
    load useCuda env none tp rank ws msl mbs dev dim nl nh q st
      = ({ defaultDType := DType.float, stdout := st.stdout,
           events := (st.events ++ [Ev.print "Loading"])
             ++ loadEvs useCuda false nl dev },
         Except.ok (placedLLaMA useCuda
           { dim := dim, nLayers := nl, nHeads := nh, quant := q }
           msl mbs env.tokenizer false dev)) := by
  simp only [load, loadResolve_none]
  rw [loadBuild_ok_eval _ _ _ _ _ _ _ _ hok]
  simp [PState.emit]

theorem load_ok_placed (useCuda : Bool) (env : Env)
    (cd : Option CheckpointDir) (tp : String) (rank ws msl mbs : Nat)
    (dev : Device) (dim nl nh : Nat) (q : Bool) (st : PState) (g : LLaMA)
    (h : (load useCuda env cd tp rank ws msl mbs dev dim nl nh q st).2
          = Except.ok g) :
    (∃ params hasCkpt, g = placedLLaMA useCuda params msl mbs env.tokenizer
        hasCkpt dev)
      ∧ (load useCuda env cd tp rank ws msl mbs dev dim nl nh q
          st).1.defaultDType = DType.float := by
  rcases hres : loadResolve cd rank ws dim nl nh q
      (st.emit (Ev.print "Loading")) with ⟨st1, r⟩
  cases r with
  | error e =>
      simp only [load, hres] at h
      exact absurd h (by simp)
  | ok pr =>
      obtain ⟨hasCkpt, params⟩ := pr
      simp only [load, hres] at h ⊢
      obtain ⟨hg, hd⟩ := loadBuild_ok_shape _ _ _ _ _ _ _ _ _ h
      exact ⟨⟨params, hasCkpt, hg⟩, hd⟩

theorem loadResolve_frame (cd : Option CheckpointDir)
    (rank ws dim nl nh : Nat) (q : Bool) (st : PState) :
    (loadResolve cd rank ws dim nl nh q st).1.stdout = st.stdout
      ∧ List.count Ev.redirectStdout
          (loadResolve cd rank ws dim nl nh q st).1.events
          = List.count Ev.redirectStdout st.events
      ∧ (st.events ≠ [] →
          (loadResolve cd rank ws dim nl nh q st).1.events.head?
            = st.events.head?) := by
  cases cd with
  | none => exact ⟨rfl, rfl, fun _ => rfl⟩
  | some dir =>
      simp only [loadResolve]
      by_cases hw : ws = (sortStrings dir.files).length
      · rw [if_pos hw]
        cases hx : (sortStrings dir.files)[rank]? with
        | none => exact ⟨rfl, rfl, fun _ => rfl⟩
        | some f =>
            refine ⟨rfl, ?_, fun hne => ?_⟩
            · simp [PState.emit, List.count_append]
            · simp only [PState.emit, List.append_assoc]
              exact head?_append_left _ _ hne
      · rw [if_neg hw]
        exact ⟨rfl, rfl, fun _ => rfl⟩

theorem load_frame (useCuda : Bool) (env : Env) (cd : Option CheckpointDir)
    (tp : String) (rank ws msl mbs : Nat) (dev : Device) (dim nl nh : Nat)
    (q : Bool) (st : PState) :
    (load useCuda env cd tp rank ws msl mbs dev dim nl nh q st).1.stdout
        = st.stdout
      ∧ List.count Ev.redirectStdout
          (load useCuda env cd tp rank ws msl mbs dev dim nl nh q st).1.events
          = List.count Ev.redirectStdout st.events
      ∧ (st.events ≠ [] →
          (load useCuda env cd tp rank ws msl mbs dev dim nl nh q
            st).1.events.head? = st.events.head?) := by
  rcases hres : loadResolve cd rank ws dim nl nh q
      (st.emit (Ev.print "Loading")) with ⟨st1, r⟩
  have hrf := loadResolve_frame cd rank ws dim nl nh q
    (st.emit (Ev.print "Loading"))
  rw [hres] at hrf
  obtain ⟨hrf1, hrf2, hrf3⟩ := hrf
  have hemitne : (st.emit (Ev.print "Loading")).events ≠ [] := by
    simp [PState.emit]
  have hst1stdout : st1.stdout = st.stdout := hrf1
  have hst1count : List.count Ev.redirectStdout st1.events
      = List.count Ev.redirectStdout st.events := by
    rw [hrf2]
    simp [PState.emit, List.count_append]
  have hst1head : st.events ≠ [] → st1.events.head? = st.events.head? := by
    intro hne
    rw [hrf3 hemitne]
    simp only [PState.emit]
    exact head?_append_left _ _ hne
  have hst1ne : st1.events ≠ [] := by
    have hh := hrf3 hemitne
    rcases hst : st.events with _ | ⟨b, bs⟩
    · exact head?_isSome_ne_nil _ (Ev.print "Loading")
        (by rw [hh]; simp [PState.emit, hst])
    · exact head?_isSome_ne_nil _ b (by rw [hh]; simp [PState.emit, hst])
  cases r with
  | error e =>
      simp only [load, hres]
      exact ⟨hst1stdout, hst1count, hst1head⟩
  | ok pr =>
      obtain ⟨hasCkpt, params⟩ := pr
      simp only [load, hres]
      obtain ⟨hb1, hb2, hb3, hb4⟩ :=
        loadBuild_frame useCuda env hasCkpt params msl mbs dev st1
      refine ⟨hb1.trans hst1stdout, hb3.trans hst1count, fun hne => ?_⟩
      rw [hb4 hst1ne, hst1head hne]

theorem printResults_eq (rs : List String) : ∀ st : PState,
    printResults rs st = { st with events := st.events ++ printEvs rs } := by
  induction rs with
  | nil => intro st; simp [printResults, printEvs]
  | cons r rest ih =>
      intro st
      have hstep : printResults (r :: rest) st
          = printResults rest ((st.emit (Ev.print r)).emit
              (Ev.print sepLine)) := rfl
      rw [hstep, ih]
      simp [PState.emit, printEvs, List.flatMap_cons, List.append_assoc]

theorem genLoop_spec (genv : GenEnv) (p : List String) (temp topP : ℚ)
    (dev : Device) : ∀ (n : Nat) (g : LLaMA) (st : PState),
    genLoop genv p temp topP dev n g st
      = ({ st with events := st.events ++ (List.range n).flatMap (fun i =>
             Ev.generate p 256 temp topP
               :: printEvs (genv.results (g.latency_list.length + i))) },
         { g with
             latency_list := g.latency_list ++ (List.range n).map
               (fun i => genv.latency (g.latency_list.length + i)),
             per_token_latency_list := g.per_token_latency_list
               ++ (List.range n).map
               (fun i => genv.perTok (g.latency_list.length + i)) }) := by
  intro n
  induction n with
  | zero => intro g st; simp [genLoop]
  | succ n ih =>
      intro g st
      have hstep : genLoop genv p temp topP dev (n + 1) g st
          = genLoop genv p temp topP dev n
              { g with
                  latency_list := g.latency_list
                    ++ [genv.latency g.latency_list.length],
                  per_token_latency_list := g.per_token_latency_list
                    ++ [genv.perTok g.latency_list.length] }
              (printResults (genv.results g.latency_list.length)
                (st.emit (Ev.generate p 256 temp topP))) := rfl
      rw [hstep, ih, printResults_eq]
      have hlen : (g.latency_list
          ++ [genv.latency g.latency_list.length]).length
          = g.latency_list.length + 1 := by simp
      simp only [Prod.mk.injEq, hlen]
      constructor
      · have hcong : (List.range n).flatMap (fun i =>
              Ev.generate p 256 temp topP
                :: printEvs (genv.results (g.latency_list.length + 1 + i)))
            = (List.range n).flatMap (fun i =>
              Ev.generate p 256 temp topP
                :: printEvs (genv.results (g.latency_list.length + (1 + i))))
            := flatMap_congr_fun _ _ _ (fun i _ => by
              have harith : g.latency_list.length + 1 + i
                  = g.latency_list.length + (1 + i) := by omega
              rw [harith])
        rw [hcong, range_succ_flatMap_shift
          (fun i => Ev.generate p 256 temp topP
            :: printEvs (genv.results (g.latency_list.length + i)))]
        simp [PState.emit, List.append_assoc]
      · have hc1 : (List.range n).map (fun i =>
              genv.latency (g.latency_list.length + 1 + i))
            = (List.range n).map (fun i =>
              genv.latency (g.latency_list.length + (1 + i)))
            := List.map_congr_left (fun i _ => by
              have harith : g.latency_list.length + 1 + i
                  = g.latency_list.length + (1 + i) := by omega
              rw [harith])
        have hc2 : (List.range n).map (fun i =>
              genv.perTok (g.latency_list.length + 1 + i))
            = (List.range n).map (fun i =>
              genv.perTok (g.latency_list.length + (1 + i)))
            := List.map_congr_left (fun i _ => by
              have harith : g.latency_list.length + 1 + i
                  = g.latency_list.length + (1 + i) := by omega
              rw [harith])
        rw [hc1, hc2, range_succ_map_shift
          (fun i => genv.latency (g.latency_list.length + i)),
          range_succ_map_shift
          (fun i => genv.perTok (g.latency_list.length + i))]
        simp [List.append_assoc]

theorem mainStats_pos (g : LLaMA) (nTimes : Nat) (st : PState)
    (hn : 0 < nTimes) :
    mainStats g nTimes st
      = ({ st with events := st.events
            ++ [Ev.print "XLA:GPU ENV INFO:", Ev.printEnvInfo,
                Ev.printRunInfo,
                Ev.printMean ((g.latency_list.drop 1).sum / (nTimes : ℚ)),
                Ev.printMeanPerTok ((g.per_token_latency_list.drop 1).sum
                  / (nTimes : ℚ) * 1000)] },
         Except.ok
           { gen := g,
             meanLatency := (g.latency_list.drop 1).sum / (nTimes : ℚ),
             meanPerTokMs := (g.per_token_latency_list.drop 1).sum
               / (nTimes : ℚ) * 1000 }) := by
  have hne : ((nTimes : ℚ)) ≠ 0 := by
    exact_mod_cast Nat.pos_iff_ne_zero.mp hn
  simp [mainStats, pyDiv, hne, PState.emit]

theorem mainStats_zero (g : LLaMA) (st : PState) :
    mainStats g 0 st
      = ({ st with events := st.events
            ++ [Ev.print "XLA:GPU ENV INFO:", Ev.printEnvInfo,
                Ev.printRunInfo] },
         Except.error PyErr.zeroDivision) := by
  simp [mainStats, pyDiv, PState.emit]

theorem mainRun_none_eval (useCuda : Bool) (env : Env) (genv : GenEnv)
    (rank ws : Nat) (tp : String) (temp topP : ℚ) (msl mbs : Nat)
    (dim nl nh : Nat) (q : Bool) (nTimes : Nat) (hok : env.ok) :
    mainRun useCuda env genv rank ws tp temp topP msl mbs none dim nl nh q
        nTimes PState.init
      = mainStats (gAfter useCuda env genv msl mbs dim nl nh q nTimes) nTimes
          (stAfter useCuda genv rank nl temp topP nTimes) := by
  simp only [mainRun]
  by_cases hr : rank > 0
  · rw [if_pos hr,
      load_none_eval useCuda env tp rank ws msl mbs Device.xla dim nl nh q
        _ hok]
    simp only [mainTail, LLaMA.generate, genLoop_spec]
    congr 1 <;>
      simp [gAfter, stAfter, placedLLaMA, runLatencies, runPerTok, preEvs,
        loopEvs, PState.emit, PState.init, hr, List.append_assoc]
  · rw [if_neg hr,
      load_none_eval useCuda env tp rank ws msl mbs Device.xla dim nl nh q
        _ hok]
    simp only [mainTail, LLaMA.generate, genLoop_spec]
    congr 1 <;>
      simp [gAfter, stAfter, placedLLaMA, runLatencies, runPerTok, preEvs,
        loopEvs, PState.emit, PState.init, hr, List.append_assoc]

theorem genEvents_append (a b : List Ev) :
    genEvents (a ++ b) = genEvents a ++ genEvents b := by
  simp [genEvents, List.filter_append]

theorem printedStrings_append (a b : List Ev) :
    printedStrings (a ++ b) = printedStrings a ++ printedStrings b := by
  simp [printedStrings, List.filterMap_append]

theorem shardLoads_append (a b : List Ev) :
    shardLoads (a ++ b) = shardLoads a ++ shardLoads b := by
  simp [shardLoads, List.filterMap_append]

theorem genEvents_printEvs (rs : List String) :
    genEvents (printEvs rs) = [] := by
  induction rs with
  | nil => rfl
  | cons r rest ih =>
      have hstep : printEvs (r :: rest)
          = [Ev.print r, Ev.print sepLine] ++ printEvs rest := by
        simp [printEvs, List.flatMap_cons]
      rw [hstep, genEvents_append, ih]
      rfl

theorem printedStrings_printEvs (rs : List String) :
    printedStrings (printEvs rs)
      = rs.flatMap (fun r => [r, sepLine]) := by
  induction rs with
  | nil => rfl
  | cons r rest ih =>
      have hstep : printEvs (r :: rest)
          = [Ev.print r, Ev.print sepLine] ++ printEvs rest := by
        simp [printEvs, List.flatMap_cons]
      rw [hstep, printedStrings_append, ih, List.flatMap_cons]
      rfl

theorem count_redirect_printEvs (rs : List String) :
    List.count Ev.redirectStdout (printEvs rs) = 0 := by
  induction rs with
  | nil => rfl
  | cons r rest ih =>
      have hstep : printEvs (r :: rest)
          = [Ev.print r, Ev.print sepLine] ++ printEvs rest := by
        simp [printEvs, List.flatMap_cons]
      rw [hstep, List.count_append, ih]
      rfl

theorem genEvents_gen_cons (p : List String) (m : Nat) (temp topP : ℚ)
    (l : List Ev) :
    genEvents (Ev.generate p m temp topP :: l)
      = Ev.generate p m temp topP :: genEvents l := by
  simp [genEvents]

theorem printedStrings_gen_cons (p : List String) (m : Nat) (temp topP : ℚ)
    (l : List Ev) :
    printedStrings (Ev.generate p m temp topP :: l) = printedStrings l := by
  simp [printedStrings]

theorem genEvents_genList (p : List String) (temp topP : ℚ)
    (rs : Nat → List String) (l : List Nat) :
    genEvents (l.flatMap (fun i =>
        Ev.generate p 256 temp topP :: printEvs (rs i)))
      = List.replicate l.length (Ev.generate p 256 temp topP) := by
  induction l with
  | nil => rfl
  | cons x xs ih =>
      rw [List.flatMap_cons, genEvents_append, genEvents_gen_cons,
        genEvents_printEvs, ih]
      simp [List.replicate_succ]

theorem printedStrings_genList (p : List String) (temp topP : ℚ)
    (rs : Nat → List String) (l : List Nat) :
    printedStrings (l.flatMap (fun i =>
        Ev.generate p 256 temp topP :: printEvs (rs i)))
      = l.flatMap (fun i => (rs i).flatMap (fun r => [r, sepLine])) := by
  induction l with
  | nil => rfl
  | cons x xs ih =>
      rw [List.flatMap_cons, printedStrings_append, printedStrings_gen_cons,
        printedStrings_printEvs, ih, List.flatMap_cons]

theorem count_redirect_genList (p : List String) (temp topP : ℚ)
    (rs : Nat → List String) (l : List Nat) :
    List.count Ev.redirectStdout (l.flatMap (fun i =>
        Ev.generate p 256 temp topP :: printEvs (rs i))) = 0 := by
  induction l with
  | nil => rfl
  | cons x xs ih =>
      rw [List.flatMap_cons, List.count_append, ih]
      simp [List.count_cons, count_redirect_printEvs]

theorem genEvents_loadEvs (useCuda hasCkpt : Bool) (nl : Nat)
    (dev : Device) : genEvents (loadEvs useCuda hasCkpt nl dev) = [] := by
  cases hasCkpt <;> simp [loadEvs, genEvents]

theorem printedStrings_loadEvs (useCuda hasCkpt : Bool) (nl : Nat)
    (dev : Device) :
    printedStrings (loadEvs useCuda hasCkpt nl dev) = ["Loaded"] := by
  cases hasCkpt <;> simp [loadEvs, printedStrings]

theorem genEvents_print_cons (s : String) (l : List Ev) :
    genEvents (Ev.print s :: l) = genEvents l := by
  simp [genEvents]

theorem genEvents_redirect_cons (l : List Ev) :
    genEvents (Ev.redirectStdout :: l) = genEvents l := by
  simp [genEvents]

theorem printedStrings_print_cons (s : String) (l : List Ev) :
    printedStrings (Ev.print s :: l) = s :: printedStrings l := by
  simp [printedStrings]

theorem printedStrings_redirect_cons (l : List Ev) :
    printedStrings (Ev.redirectStdout :: l) = printedStrings l := by
  simp [printedStrings]

theorem genEvents_preEvs (useCuda : Bool) (rank nl : Nat) :
    genEvents (preEvs useCuda rank nl) = [] := by
  by_cases hr : rank > 0 <;>
    rw [preEvs] <;>
    simp only [hr, if_pos, if_neg, ite_true, ite_false, List.nil_append,
      List.singleton_append, genEvents_redirect_cons, genEvents_print_cons,
      genEvents_loadEvs]

theorem printedStrings_preEvs (useCuda : Bool) (rank nl : Nat) :
    printedStrings (preEvs useCuda rank nl) = ["Loading", "Loaded"] := by
  by_cases hr : rank > 0 <;>
    rw [preEvs] <;>
    simp only [hr, if_pos, if_neg, ite_true, ite_false, List.nil_append,
      List.singleton_append, printedStrings_redirect_cons,
      printedStrings_print_cons, printedStrings_loadEvs]

theorem genEvents_loopEvs (genv : GenEnv) (temp topP : ℚ) (n : Nat) :
    genEvents (loopEvs genv temp topP n)
      = List.replicate n (Ev.generate promptList 256 temp topP) := by
  rw [loopEvs, genEvents_genList]
  simp

theorem printedStrings_loopEvs (genv : GenEnv) (temp topP : ℚ) (n : Nat) :
    printedStrings (loopEvs genv temp topP n)
      = (List.range n).flatMap (fun i =>
          (genv.results (1 + i)).flatMap (fun r => [r, sepLine])) := by
  rw [loopEvs, printedStrings_genList]

theorem mainStats_frame (g : LLaMA) (n : Nat) (st : PState) :
    (mainStats g n st).1.stdout = st.stdout
      ∧ List.count Ev.redirectStdout (mainStats g n st).1.events
          = List.count Ev.redirectStdout st.events
      ∧ (st.events ≠ [] →
          (mainStats g n st).1.events.head? = st.events.head?) := by
  simp only [mainStats]
  cases hp1 : pyDiv (g.latency_list.drop 1).sum (n : ℚ) with
  | error e =>
      refine ⟨rfl, ?_, fun hne => ?_⟩
      · simp [PState.emit, List.count_append]
      · simp only [PState.emit, List.append_assoc]
        exact head?_append_left _ _ hne
  | ok m1 =>
      cases hp2 : pyDiv (g.per_token_latency_list.drop 1).sum (n : ℚ) with
      | error e =>
          refine ⟨rfl, ?_, fun hne => ?_⟩
          · simp [PState.emit, List.count_append]
          · simp only [PState.emit, List.append_assoc]
            exact head?_append_left _ _ hne
      | ok m2 =>
          refine ⟨rfl, ?_, fun hne => ?_⟩
          · simp [PState.emit, List.count_append]
          · simp only [PState.emit, List.append_assoc]
            exact head?_append_left _ _ hne

theorem mainStats_frame_over (G : LLaMA) (n : Nat) (base : PState)
    (tail : List Ev) (hcount : List.count Ev.redirectStdout tail = 0) :
    (mainStats G n { base with events := base.events ++ tail }).1.stdout
        = base.stdout
      ∧ List.count Ev.redirectStdout
          (mainStats G n { base with events := base.events ++ tail }).1.events
          = List.count Ev.redirectStdout base.events
      ∧ (base.events ≠ [] →
          (mainStats G n
            { base with events := base.events ++ tail }).1.events.head?
            = base.events.head?) := by
  obtain ⟨h1, h2, h3⟩ :=
    mainStats_frame G n { base with events := base.events ++ tail }
  refine ⟨h1, ?_, fun hne => ?_⟩
  · rw [h2]
    simp [List.count_append, hcount]
  · rw [h3 (by cases hbe : base.events <;> simp_all)]
    exact head?_append_left _ _ hne

theorem mainTail_frame (genv : GenEnv) (temp topP : ℚ) (n : Nat)
    (g : LLaMA) (st : PState) :
    (mainTail genv temp topP n g st).1.stdout = st.stdout
      ∧ List.count Ev.redirectStdout (mainTail genv temp topP n g st).1.events
          = List.count Ev.redirectStdout st.events
      ∧ (st.events ≠ [] →
          (mainTail genv temp topP n g st).1.events.head? = st.events.head?)
    := by
  simp only [mainTail, LLaMA.generate, genLoop_spec, PState.emit,
    List.append_assoc, List.singleton_append]
  refine mainStats_frame_over _ _ _ _ ?_
  simp [List.count_cons, count_redirect_genList]

/-! ### Claim theorems -/

/-- Claim C1, counterexample: the claim as stated is false.  With a
checkpoint-less call in which the external `Transformer(model_args)`
constructor raises (after the bfloat16 override at line 83 and before the
restore at line 90), `load` exits on the exception path with the
process-global default dtype still bfloat16, not the float default that
was in effect before the call: the override leaks because the restore is
not in a `try/finally`. -/
theorem claim1_counterexample :
    (load false envCrash none "tokenizer.model" 0 1 512 32 Device.xla 4096
      32 32 false PState.init).1.defaultDType
      ≠ PState.init.defaultDType := by
  decide

/-- Claim C1 (amended): when the default precision in effect before the
call is the full-precision default (`float`) and `load` returns normally,
the precision in effect after it returns equals the one before — line 90
restores `torch.FloatTensor` on the successful-return path.  (On exception
paths raised between the override and the restore, the half/bfloat16
override can leak, as the counterexample shows.) -/
theorem claim1_precision_restored (useCuda : Bool) (env : Env)
    (cd : Option CheckpointDir) (tp : String) (rank ws msl mbs : Nat)
    (dev : Device) (dim nl nh : Nat) (q : Bool) (st : PState) (g : LLaMA)
    (hpre : st.defaultDType = DType.float)
    (hok : (load useCuda env cd tp rank ws msl mbs dev dim nl nh q st).2
        = Except.ok g) :
    (load useCuda env cd tp rank ws msl mbs dev dim nl nh q
      st).1.defaultDType = st.defaultDType := by
  rw [hpre]
  exact (load_ok_placed useCuda env cd tp rank ws msl mbs dev dim nl nh q st
    g hok).2

/-- Claim C2: with `world_size` equal to the number of shard files, `load`
never fails with the shard-count assertion; with `world_size` different
from it, `load` returns exactly the assertion error whose message names
both counts, and the final state shows that only the `"Loading"` print
happened — no checkpoint file was read, no manifest was read, no model was
constructed and no device transfer was attempted. -/
theorem claim2_shard_count_check (useCuda : Bool) (env : Env)
    (dir : CheckpointDir) (tp : String) (rank ws msl mbs : Nat)
    (dev : Device) (dim nl nh : Nat) (q : Bool) (st : PState) :
    (ws = dir.files.length →
      ∀ m, (load useCuda env (some dir) tp rank ws msl mbs dev dim nl nh q
        st).2 ≠ Except.error (PyErr.assertionError m))
    ∧ (ws ≠ dir.files.length →
      load useCuda env (some dir) tp rank ws msl mbs dev dim nl nh q st
        = (st.emit (Ev.print "Loading"),
           Except.error (PyErr.assertionError
             (assertMsg dir.files.length ws)))) := by
  constructor
  · intro hws m
    by_cases hr : rank < ws
    · simp only [load, loadResolve_hit dir rank ws dim nl nh q _ hws hr]
      exact loadBuild_no_assert _ _ _ _ _ _ _ _ _
    · simp only [load,
        loadResolve_oob dir rank ws dim nl nh q _ hws (by omega)]
      simp
  · intro hws
    simp only [load, loadResolve_mismatch dir rank ws dim nl nh q _ hws]

/-- Claim C3: when the shard-count assertion passes and `rank` is in
range, the shard files read by `load` are exactly one: the file at index
`rank` of the lexicographically sorted shard filenames.  The right-hand
side depends only on the directory's filenames and `rank`, so shard
selection is a deterministic pure function of them, and no other shard is
ever loaded. -/
theorem claim3_shard_selection (useCuda : Bool) (env : Env)
    (dir : CheckpointDir) (tp : String) (rank ws msl mbs : Nat)
    (dev : Device) (dim nl nh : Nat) (q : Bool) (st : PState)
    (hws : ws = dir.files.length) (hr : rank < ws) :
    shardLoads ((load useCuda env (some dir) tp rank ws msl mbs dev dim nl
        nh q st).1.events)
      = shardLoads st.events ++ [(sortStrings dir.files).getD rank ""] := by
  simp only [load, loadResolve_hit dir rank ws dim nl nh q _ hws hr]
  rw [(loadBuild_frame _ _ _ _ _ _ _ _).2.1]
  simp [PState.emit, shardLoads_append, shardLoads, List.append_assoc]

/-- Claim C6: on the checkpoint-less path the manifest is built purely
from the caller-supplied `dim`, `n_layers`, `n_heads`, `quant` (with
`vocab_size` from the tokenizer), no shard is read and no state dict is
applied; and on every successful path, checkpoint or not, `vocab_size`
comes from the tokenizer's `n_words`, never from the checkpoint or the
caller. -/
theorem claim6_manifest (useCuda : Bool) (env : Env) (tp : String)
    (rank ws msl mbs : Nat) (dev : Device) (dim nl nh : Nat) (q : Bool)
    (st : PState) :
    (∀ g, (load useCuda env none tp rank ws msl mbs dev dim nl nh q st).2
        = Except.ok g →
      g.model.args
          = { dim := dim, nLayers := nl, nHeads := nh, quant := q,
              maxSeqLen := msl, maxBatchSize := mbs,
              vocabSize := env.tokenizer.nWords }
        ∧ g.model.loadedCkpt = false)
    ∧ shardLoads ((load useCuda env none tp rank ws msl mbs dev dim nl nh q
        st).1.events) = shardLoads st.events
    ∧ (∀ cd g, (load useCuda env cd tp rank ws msl mbs dev dim nl nh q
        st).2 = Except.ok g →
      g.model.args.vocabSize = env.tokenizer.nWords) := by
  refine ⟨fun g hg => ?_, ?_, fun cd g hg => ?_⟩
  · simp only [load, loadResolve_none] at hg
    obtain ⟨hgeq, _⟩ := loadBuild_ok_shape _ _ _ _ _ _ _ _ _ hg
    subst hgeq
    exact ⟨rfl, rfl⟩
  · simp only [load, loadResolve_none]
    rw [(loadBuild_frame _ _ _ _ _ _ _ _).2.1]
    simp [PState.emit, shardLoads_append, shardLoads]
  · obtain ⟨⟨params, hasCkpt, hgeq⟩, _⟩ :=
      load_ok_placed useCuda env cd tp rank ws msl mbs dev dim nl nh q st g
        hg
    subst hgeq
    rfl

/-- Claim C8: after a successful `load`, the whole model resides on the
target device, and the cache collection is exactly one per-layer pair of
device-migrated tensors — each pair was rebuilt element-wise and no cache
tensor is left on host memory (every element's device is the target). -/
theorem claim8_cache_migration (useCuda : Bool) (env : Env)
    (cd : Option CheckpointDir) (tp : String) (rank ws msl mbs : Nat)
    (dev : Device) (dim nl nh : Nat) (q : Bool) (st : PState) (g : LLaMA)
    (hok : (load useCuda env cd tp rank ws msl mbs dev dim nl nh q st).2
        = Except.ok g) :
    g.model.device = dev
      ∧ g.model.cache_kvs = List.replicate g.model.args.nLayers
          (({ device := dev,
              dtype := if useCuda then DType.half else DType.bfloat16 } :
              Tensor),
           ({ device := dev,
              dtype := if useCuda then DType.half else DType.bfloat16 } :
              Tensor))
      ∧ ∀ pr ∈ g.model.cache_kvs, pr.1.device = dev ∧ pr.2.device = dev
    := by
  obtain ⟨⟨params, hasCkpt, hgeq⟩, _⟩ :=
    load_ok_placed useCuda env cd tp rank ws msl mbs dev dim nl nh q st g
      hok
  subst hgeq
  refine ⟨rfl, rfl, fun pr hpr => ?_⟩
  simp only [placedLLaMA, List.mem_replicate] at hpr
  obtain ⟨-, rfl⟩ := hpr
  exact ⟨rfl, rfl⟩

/-- Claim C10: with no checkpoint directory, `rank` and `world_size` are
entirely unused — the result of `load` is identical for any two choices of
them, and with an all-succeeding environment the call succeeds for any
`rank` and `world_size`, including `rank ≥ world_size`.  With a checkpoint
directory present, `rank ≥ world_size` is caught only indirectly, by the
shard indexing (an `IndexError`), after the shard-count assertion. -/
theorem claim10_rank_unused (useCuda : Bool) (env : Env) (tp : String)
    (r1 w1 r2 w2 msl mbs : Nat) (dev : Device) (dim nl nh : Nat) (q : Bool)
    (st : PState) :
    (load useCuda env none tp r1 w1 msl mbs dev dim nl nh q st
        = load useCuda env none tp r2 w2 msl mbs dev dim nl nh q st)
    ∧ (env.ok →
        (load useCuda env none tp r1 w1 msl mbs dev dim nl nh q st).2
          = Except.ok (placedLLaMA useCuda
              { dim := dim, nLayers := nl, nHeads := nh, quant := q }
              msl mbs env.tokenizer false dev))
    ∧ (∀ dir : CheckpointDir, w1 = dir.files.length → w1 ≤ r1 →
        (load useCuda env (some dir) tp r1 w1 msl mbs dev dim nl nh q
          st).2 = Except.error PyErr.indexError) := by
  refine ⟨rfl, fun hok => ?_, fun dir hws hr => ?_⟩
  · rw [load_none_eval useCuda env tp r1 w1 msl mbs dev dim nl nh q st hok]
  · simp only [load, loadResolve_oob dir r1 w1 dim nl nh q _ hws hr]

/-- Claim C5: when the multiprocess flag and the XLA runtime are both
selected, the launcher spawns one child per visible device, every child
running the identical pipeline (`_fn` forwards to `main`) with the
launcher's own configuration regardless of its index; otherwise the
pipeline runs exactly once in the calling process with the same
arguments. -/
theorem claim5_launcher (useCuda useXla mp : Bool) (nDevices : Nat)
    (childTopo : Nat → Topo) (selfTopo : Topo) (env : Env) (genv : GenEnv)
    (cfg : Config) :
    (mp = true → useXla = true →
      mp_main useCuda useXla mp nDevices childTopo selfTopo env genv cfg
        = LaunchOut.spawned ((List.range nDevices).map (fun idx =>
            runMain useCuda env genv (childTopo idx) cfg))
        ∧ ((List.range nDevices).map (fun idx =>
            runMain useCuda env genv (childTopo idx) cfg)).length = nDevices
        ∧ ∀ i t, fnChild i useCuda env genv t cfg
            = runMain useCuda env genv t cfg)
    ∧ ((mp && useXla) = false →
      mp_main useCuda useXla mp nDevices childTopo selfTopo env genv cfg
        = LaunchOut.inProcess (runMain useCuda env genv selfTopo cfg)) := by
  constructor
  · rintro rfl rfl
    exact ⟨by simp [mp_main, fnChild], by simp, fun i t => rfl⟩
  · intro hm
    simp [mp_main, hm]

/-- Claim C4: a checkpoint-less successful run with `n_times > 0` performs
exactly `n_times + 1` identical generation calls (warmup plus timed), the
printed results are exactly those of calls 1..n_times (the warmup's
results at call index 0 are never printed), the latency record has
`n_times + 1` entries, and the reported means are the sums of the record
entries from index 1 onward divided by `n_times` (the per-token one scaled
to milliseconds). -/
theorem claim4_orchestrator (useCuda : Bool) (env : Env) (genv : GenEnv)
    (rank ws : Nat) (tp : String) (temp topP : ℚ) (msl mbs : Nat)
    (dim nl nh : Nat) (q : Bool) (nTimes : Nat) (hok : env.ok)
    (hn : 0 < nTimes) :
    genEvents ((mainRun useCuda env genv rank ws tp temp topP msl mbs none
        dim nl nh q nTimes PState.init).1.events)
      = List.replicate (nTimes + 1) (Ev.generate promptList 256 temp topP)
    ∧ printedStrings ((mainRun useCuda env genv rank ws tp temp topP msl mbs
        none dim nl nh q nTimes PState.init).1.events)
      = ["Loading", "Loaded"]
        ++ (List.range nTimes).flatMap (fun i =>
            (genv.results (1 + i)).flatMap (fun r => [r, sepLine]))
        ++ ["XLA:GPU ENV INFO:"]
    ∧ (mainRun useCuda env genv rank ws tp temp topP msl mbs none dim nl nh
        q nTimes PState.init).2
      = Except.ok
          { gen := gAfter useCuda env genv msl mbs dim nl nh q nTimes,
            meanLatency := ((List.range nTimes).map (fun i =>
              genv.latency (1 + i))).sum / (nTimes : ℚ),
            meanPerTokMs := ((List.range nTimes).map (fun i =>
              genv.perTok (1 + i))).sum / (nTimes : ℚ) * 1000 }
    ∧ (gAfter useCuda env genv msl mbs dim nl nh q nTimes).latency_list
      = (List.range (nTimes + 1)).map genv.latency
    ∧ (gAfter useCuda env genv msl mbs dim nl nh q
        nTimes).latency_list.length = nTimes + 1 := by
  have heval := mainRun_none_eval useCuda env genv rank ws tp temp topP msl
    mbs dim nl nh q nTimes hok
  rw [heval, mainStats_pos _ _ _ hn]
  refine ⟨?_, ?_, ?_, ?_, ?_⟩
  · dsimp only [stAfter]
    rw [genEvents_append, genEvents_append, genEvents_preEvs,
      genEvents_gen_cons, genEvents_loopEvs]
    simp [genEvents, List.replicate_succ]
  · dsimp only [stAfter]
    rw [printedStrings_append, printedStrings_append, printedStrings_preEvs,
      printedStrings_gen_cons, printedStrings_loopEvs]
    simp [printedStrings]
  · dsimp only
    simp [gAfter, runLatencies, runPerTok]
  · rw [range_succ_map_shift genv.latency nTimes]
    simp [gAfter, runLatencies]
  · simp [gAfter, runLatencies]

/-- Claim C9: with `n_times = 0` a checkpoint-less successful run performs
zero timed generation calls — the single generation event is the warmup —
and then fails with `ZeroDivisionError` at the mean-latency reporting
step, because the divisions by `n_times` are unguarded. -/
theorem claim9_zero_division (useCuda : Bool) (env : Env) (genv : GenEnv)
    (rank ws : Nat) (tp : String) (temp topP : ℚ) (msl mbs : Nat)
    (dim nl nh : Nat) (q : Bool) (hok : env.ok) :
    (mainRun useCuda env genv rank ws tp temp topP msl mbs none dim nl nh q
        0 PState.init).2 = Except.error PyErr.zeroDivision
    ∧ genEvents ((mainRun useCuda env genv rank ws tp temp topP msl mbs
        none dim nl nh q 0 PState.init).1.events)
      = [Ev.generate promptList 256 temp topP] := by
  have heval := mainRun_none_eval useCuda env genv rank ws tp temp topP msl
    mbs dim nl nh q 0 hok
  rw [heval, mainStats_zero]
  constructor
  · rfl
  · dsimp only [stAfter]
    rw [genEvents_append, genEvents_append, genEvents_preEvs,
      genEvents_gen_cons, genEvents_loopEvs]
    simp [genEvents]

/-- Claim C7: in every run (any environment, any checkpoint directory, any
outcome), a process with `rank > 0` redirects its stdout to the null
device before anything else — the redirection is the first event of the
trace, it happens exactly once, and the final stdout is still the null
device (never restored) — while a `rank = 0` process's stdout is left
unchanged and no redirection event ever occurs. -/
theorem claim7_stdout (useCuda : Bool) (env : Env) (genv : GenEnv)
    (rank ws : Nat) (tp : String) (temp topP : ℚ) (msl mbs : Nat)
    (cd : Option CheckpointDir) (dim nl nh : Nat) (q : Bool)
    (nTimes : Nat) :
    (rank > 0 →
      (mainRun useCuda env genv rank ws tp temp topP msl mbs cd dim nl nh q
          nTimes PState.init).1.stdout = Stdout.devnull
      ∧ (mainRun useCuda env genv rank ws tp temp topP msl mbs cd dim nl nh
          q nTimes PState.init).1.events.head? = some Ev.redirectStdout
      ∧ List.count Ev.redirectStdout (mainRun useCuda env genv rank ws tp
          temp topP msl mbs cd dim nl nh q nTimes PState.init).1.events = 1)
    ∧ (rank = 0 →
      (mainRun useCuda env genv rank ws tp temp topP msl mbs cd dim nl nh q
          nTimes PState.init).1.stdout = Stdout.real
      ∧ Ev.redirectStdout ∉ (mainRun useCuda env genv rank ws tp temp topP
          msl mbs cd dim nl nh q nTimes PState.init).1.events) := by
  constructor
  · intro hr
    simp only [mainRun, if_pos hr]
    rcases hload : load useCuda env cd tp rank ws msl mbs Device.xla dim nl
        nh q ((({ PState.init with stdout := Stdout.devnull } :
          PState)).emit Ev.redirectStdout) with ⟨st2, r⟩
    have hlf := load_frame useCuda env cd tp rank ws msl mbs Device.xla dim
      nl nh q ((({ PState.init with stdout := Stdout.devnull } :
        PState)).emit Ev.redirectStdout)
    rw [hload] at hlf
    obtain ⟨hlf1, hlf2, hlf3⟩ := hlf
    have hne1 : ((({ PState.init with stdout := Stdout.devnull } :
        PState)).emit Ev.redirectStdout).events ≠ [] := by
      simp [PState.emit, PState.init]
    have hhead2 : st2.events.head? = some Ev.redirectStdout := by
      rw [hlf3 hne1]
      rfl
    have hne2 : st2.events ≠ [] := head?_isSome_ne_nil _ _ hhead2
    cases r with
    | error e =>
        refine ⟨hlf1, hhead2, ?_⟩
        rw [hlf2]
        rfl
    | ok g =>
        obtain ⟨ht1, ht2, ht3⟩ := mainTail_frame genv temp topP nTimes g st2
        refine ⟨ht1.trans hlf1, ?_, ?_⟩
        · rw [ht3 hne2, hhead2]
        · rw [ht2, hlf2]
          rfl
  · intro hr0
    have hif : ¬ rank > 0 := by omega
    simp only [mainRun, if_neg hif]
    rcases hload : load useCuda env cd tp rank ws msl mbs Device.xla dim nl
        nh q PState.init with ⟨st2, r⟩
    have hlf := load_frame useCuda env cd tp rank ws msl mbs Device.xla dim
      nl nh q PState.init
    rw [hload] at hlf
    obtain ⟨hlf1, hlf2, hlf3⟩ := hlf
    cases r with
    | error e =>
        refine ⟨hlf1, ?_⟩
        rw [← List.count_eq_zero (a := Ev.redirectStdout), hlf2]
        rfl
    | ok g =>
        obtain ⟨ht1, ht2, ht3⟩ := mainTail_frame genv temp topP nTimes g st2
        refine ⟨ht1.trans hlf1, ?_⟩
        rw [← List.count_eq_zero (a := Ev.redirectStdout), ht2, hlf2]
        rfl

/-! ### Witnesses -/

/-- Witness for C1 (amended) at a concrete checkpoint-less call. -/
theorem claim1_precision_restored_witness :
    PState.init.defaultDType = DType.float
      ∧ (load false envW none "tokenizer.model" 0 1 512 32 Device.xla 256 4
          4 false PState.init).2
        = Except.ok (placedLLaMA false
            { dim := 256, nLayers := 4, nHeads := 4, quant := false } 512 32
            { nWords := 32000 } false Device.xla)
      ∧ (load false envW none "tokenizer.model" 0 1 512 32 Device.xla 256 4
          4 false PState.init).1.defaultDType = PState.init.defaultDType :=
  ⟨rfl, rfl,
    claim1_precision_restored false envW none "tokenizer.model" 0 1 512 32
      Device.xla 256 4 4 false PState.init
      (placedLLaMA false
        { dim := 256, nLayers := 4, nHeads := 4, quant := false } 512 32
        { nWords := 32000 } false Device.xla)
      rfl rfl⟩

/-- Witness for C2 at a one-shard directory, matching and mismatching. -/
theorem claim2_shard_count_check_witness :
    (1 = dirW.files.length
      ∧ (load false envW (some dirW) "t" 0 1 512 32 Device.xla 4096 32 32
          false PState.init).2
        ≠ Except.error (PyErr.assertionError (assertMsg 1 1)))
    ∧ (3 ≠ dirW.files.length
      ∧ load false envW (some dirW) "t" 0 3 512 32 Device.xla 4096 32 32
          false PState.init
        = (PState.init.emit (Ev.print "Loading"),
           Except.error (PyErr.assertionError (assertMsg 1 3)))) :=
  ⟨⟨by decide,
    (claim2_shard_count_check false envW dirW "t" 0 1 512 32 Device.xla
      4096 32 32 false PState.init).1 (by decide) (assertMsg 1 1)⟩,
   ⟨by decide,
    (claim2_shard_count_check false envW dirW "t" 0 3 512 32 Device.xla
      4096 32 32 false PState.init).2 (by decide)⟩⟩

/-- Witness for C3 at a one-shard directory with rank 0. -/
theorem claim3_shard_selection_witness :
    1 = dirW.files.length ∧ 0 < 1
      ∧ shardLoads ((load false envW (some dirW) "t" 0 1 512 32 Device.xla
          4096 32 32 false PState.init).1.events)
        = ["consolidated.00.pth"] :=
  ⟨by decide, by decide,
    (claim3_shard_selection false envW dirW "t" 0 1 512 32 Device.xla 4096
      32 32 false PState.init (by decide) (by decide)).trans (by decide)⟩

/-- Witness for C4 at a concrete three-iteration run. -/
theorem claim4_orchestrator_witness :
    envW.ok ∧ 0 < 3
      ∧ genEvents ((mainRun false envW genvW 0 1 "t" (8 / 10) (95 / 100)
          512 32 none 256 4 4 false 3 PState.init).1.events)
        = List.replicate 4 (Ev.generate promptList 256 (8 / 10) (95 / 100))
      ∧ (mainRun false envW genvW 0 1 "t" (8 / 10) (95 / 100) 512 32 none
          256 4 4 false 3 PState.init).2
        = Except.ok
            { gen := gAfter false envW genvW 512 32 256 4 4 false 3,
              meanLatency := ((List.range 3).map (fun i =>
                genvW.latency (1 + i))).sum / (3 : ℚ),
              meanPerTokMs := ((List.range 3).map (fun i =>
                genvW.perTok (1 + i))).sum / (3 : ℚ) * 1000 } :=
  ⟨by decide, by decide,
    (claim4_orchestrator false envW genvW 0 1 "t" (8 / 10) (95 / 100) 512
      32 256 4 4 false 3 (by decide) (by decide)).1,
    (claim4_orchestrator false envW genvW 0 1 "t" (8 / 10) (95 / 100) 512
      32 256 4 4 false 3 (by decide) (by decide)).2.2.1⟩

/-- Witness for C5 with four visible devices. -/
theorem claim5_launcher_witness :
    mp_main false true true 4 (fun i => ({ rank := i, worldSize := 4 } :
        Topo)) { rank := 0, worldSize := 4 } envW genvW cfgW
      = LaunchOut.spawned ((List.range 4).map (fun idx =>
          runMain false envW genvW { rank := idx, worldSize := 4 } cfgW))
    ∧ mp_main false true false 4 (fun i => ({ rank := i, worldSize := 4 } :
        Topo)) { rank := 0, worldSize := 4 } envW genvW cfgW
      = LaunchOut.inProcess (runMain false envW genvW
          { rank := 0, worldSize := 4 } cfgW) :=
  ⟨((claim5_launcher false true true 4
      (fun i => ({ rank := i, worldSize := 4 } : Topo))
      { rank := 0, worldSize := 4 } envW genvW cfgW).1 rfl rfl).1,
   (claim5_launcher false true false 4
      (fun i => ({ rank := i, worldSize := 4 } : Topo))
      { rank := 0, worldSize := 4 } envW genvW cfgW).2 rfl⟩

/-- Witness for C6 at a concrete checkpoint-less call. -/
theorem claim6_manifest_witness :
    ((load false envW none "t" 0 1 512 32 Device.xla 256 4 4 false
        PState.init).2
      = Except.ok (placedLLaMA false
          { dim := 256, nLayers := 4, nHeads := 4, quant := false } 512 32
          { nWords := 32000 } false Device.xla))
    ∧ ((placedLLaMA false
          { dim := 256, nLayers := 4, nHeads := 4, quant := false } 512 32
          { nWords := 32000 } false Device.xla).model.args
        = { dim := 256, nLayers := 4, nHeads := 4, quant := false,
            maxSeqLen := 512, maxBatchSize := 32, vocabSize := 32000 }
      ∧ (placedLLaMA false
          { dim := 256, nLayers := 4, nHeads := 4, quant := false } 512 32
          { nWords := 32000 } false Device.xla).model.loadedCkpt = false) :=
  ⟨rfl,
    (claim6_manifest false envW "t" 0 1 512 32 Device.xla 256 4 4 false
      PState.init).1
      (placedLLaMA false
        { dim := 256, nLayers := 4, nHeads := 4, quant := false } 512 32
        { nWords := 32000 } false Device.xla)
      rfl⟩

/-- Witness for C7 at concrete rank-1 and rank-0 runs. -/
theorem claim7_stdout_witness :
    (1 > 0
      ∧ ((mainRun false envW genvW 1 1 "t" (8 / 10) (95 / 100) 512 32 none
            256 4 4 false 3 PState.init).1.stdout = Stdout.devnull
        ∧ (mainRun false envW genvW 1 1 "t" (8 / 10) (95 / 100) 512 32 none
            256 4 4 false 3 PState.init).1.events.head?
            = some Ev.redirectStdout
        ∧ List.count Ev.redirectStdout (mainRun false envW genvW 1 1 "t"
            (8 / 10) (95 / 100) 512 32 none 256 4 4 false 3
            PState.init).1.events = 1))
    ∧ ((mainRun false envW genvW 0 1 "t" (8 / 10) (95 / 100) 512 32 none
          256 4 4 false 3 PState.init).1.stdout = Stdout.real
      ∧ Ev.redirectStdout ∉ (mainRun false envW genvW 0 1 "t" (8 / 10)
          (95 / 100) 512 32 none 256 4 4 false 3 PState.init).1.events) :=
  ⟨⟨by decide,
    (claim7_stdout false envW genvW 1 1 "t" (8 / 10) (95 / 100) 512 32 none
      256 4 4 false 3).1 (by decide)⟩,
   (claim7_stdout false envW genvW 0 1 "t" (8 / 10) (95 / 100) 512 32 none
      256 4 4 false 3).2 rfl⟩

/-- Witness for C8 at a concrete checkpoint-less call. -/
theorem claim8_cache_migration_witness :
    ((load false envW none "t" 0 1 512 32 Device.xla 256 4 4 false
        PState.init).2
      = Except.ok (placedLLaMA false
          { dim := 256, nLayers := 4, nHeads := 4, quant := false } 512 32
          { nWords := 32000 } false Device.xla))
    ∧ (placedLLaMA false
        { dim := 256, nLayers := 4, nHeads := 4, quant := false } 512 32
        { nWords := 32000 } false Device.xla).model.device = Device.xla
    ∧ (placedLLaMA false
        { dim := 256, nLayers := 4, nHeads := 4, quant := false } 512 32
        { nWords := 32000 } false Device.xla).model.cache_kvs
      = List.replicate 4
          (({ device := Device.xla, dtype := DType.bfloat16 } : Tensor),
           ({ device := Device.xla, dtype := DType.bfloat16 } : Tensor)) :=
  ⟨rfl,
    (claim8_cache_migration false envW none "t" 0 1 512 32 Device.xla 256 4
      4 false PState.init
      (placedLLaMA false
        { dim := 256, nLayers := 4, nHeads := 4, quant := false } 512 32
        { nWords := 32000 } false Device.xla)
      rfl).1,
    ((claim8_cache_migration false envW none "t" 0 1 512 32 Device.xla 256
      4 4 false PState.init
      (placedLLaMA false
        { dim := 256, nLayers := 4, nHeads := 4, quant := false } 512 32
        { nWords := 32000 } false Device.xla)
      rfl).2.1).trans (by decide)⟩

/-- Witness for C9 at a concrete zero-iteration run. -/
theorem claim9_zero_division_witness :
    envW.ok
      ∧ (mainRun false envW genvW 0 1 "t" (8 / 10) (95 / 100) 512 32 none
          256 4 4 false 0 PState.init).2 = Except.error PyErr.zeroDivision
      ∧ genEvents ((mainRun false envW genvW 0 1 "t" (8 / 10) (95 / 100)
          512 32 none 256 4 4 false 0 PState.init).1.events)
        = [Ev.generate promptList 256 (8 / 10) (95 / 100)] :=
  ⟨by decide,
    claim9_zero_division false envW genvW 0 1 "t" (8 / 10) (95 / 100) 512
      32 256 4 4 false (by decide)⟩

/-- Witness for C10 at concrete out-of-range ranks. -/
theorem claim10_rank_unused_witness :
    (load false envW none "t" 5 2 512 32 Device.xla 256 4 4 false
        PState.init
      = load false envW none "t" 0 1 512 32 Device.xla 256 4 4 false
        PState.init)
    ∧ envW.ok
    ∧ (load false envW none "t" 5 2 512 32 Device.xla 256 4 4 false
        PState.init).2
      = Except.ok (placedLLaMA false
          { dim := 256, nLayers := 4, nHeads := 4, quant := false } 512 32
          { nWords := 32000 } false Device.xla)
    ∧ 1 = dirW.files.length ∧ 1 ≤ 1
    ∧ (load false envW (some dirW) "t" 1 1 512 32 Device.xla 256 4 4 false
        PState.init).2 = Except.error PyErr.indexError :=
  ⟨(claim10_rank_unused false envW "t" 5 2 0 1 512 32 Device.xla 256 4 4
      false PState.init).1,
   by decide,
   (claim10_rank_unused false envW "t" 5 2 0 1 512 32 Device.xla 256 4 4
      false PState.init).2.1 (by decide),
   by decide, by decide,
   (claim10_rank_unused false envW "t" 1 1 0 1 512 32 Device.xla 256 4 4
      false PState.init).2.2 dirW (by decide) (by decide)⟩
